import Mathlib

/-!
Verification development for the firebird-api repository (src/index.js).

The file shallowly embeds the query-composition and result-shaping layer of
the API: the warehouse pivot (processExistencias), the cross-store reconciler,
the dynamic WHERE-clause builders of GET /clavesalternas/filter and
GET /clavesalternas/filter-ranges, the pagination calculator, and the
request handlers of the endpoints the claims mention.  Database round trips
are modelled as oracle inputs of type Except String _ (ok rows / failure),
row values as an inductive JVal (null / NaN / rational number / string), and
machine floats as exact rationals.  All definitions are executable.
-/

/-- A JavaScript/SQL scalar value: null (also used for a missing object key,
which behaves the same in every code path modelled here), NaN, a finite
number (modelled as an exact rational) or a string. -/
inductive JVal where
  | null
  | nan
  | num (q : Rat)
  | str (s : String)
deriving DecidableEq, Repr

/-- Digits taken greedily from the front of a character list, as values 0-9,
together with the rest of the list. -/
def takeDigits : List Char → List Nat × List Char
  | [] => ([], [])
  | c :: cs =>
    if c.isDigit then
      let r := takeDigits cs
      ((c.toNat - 48) :: r.1, r.2)
    else ([], c :: cs)

/-- Left fold of a digit list into the natural number it denotes. -/
def digitsToNat (ds : List Nat) : Nat := ds.foldl (fun a d => a * 10 + d) 0

/-- Leading sign of a numeric literal, with the sign consumed. -/
def splitSign : List Char → Rat × List Char
  | '-' :: cs => (-1, cs)
  | '+' :: cs => (1, cs)
  | cs => (1, cs)

/-- Leading sign of an integer exponent, with the sign consumed. -/
def splitSignInt : List Char → Int × List Char
  | '-' :: cs => (-1, cs)
  | '+' :: cs => (1, cs)
  | cs => (1, cs)

/-- JavaScript String.toUpperCase (ASCII range), computed on the character
list so that proofs can evaluate it. -/
def jsToUpper (s : String) : String := String.mk (s.toList.map Char.toUpper)

/-- JavaScript String.trim / SQL TRIM: strip whitespace from both ends,
computed on the character list. -/
def jsTrim (s : String) : String :=
  String.mk (((s.toList.dropWhile (fun c => c.isWhitespace)).reverse.dropWhile
    (fun c => c.isWhitespace)).reverse)

/-- Structural part of JavaScript parseFloat: skip leading whitespace, then
greedily parse sign, integer digits, an optional fraction and an optional
exponent; the result is none exactly when no digit is consumed (NaN in JS).
Returns (signed scaled mantissa, fraction length, exponent). -/
def parseFloatParts (s : String) : Option (Int × Nat × Int) :=
  let cs := s.toList.dropWhile (fun c => c.isWhitespace)
  let sg := splitSignInt cs
  let ip := takeDigits sg.2
  let fp : List Nat × List Char :=
    match ip.2 with
    | '.' :: rest => takeDigits rest
    | rest => ([], rest)
  if ip.1.length + fp.1.length = 0 then none
  else
    let mant : Int := sg.1 * ((digitsToNat ip.1 * 10 ^ fp.1.length + digitsToNat fp.1 : Nat) : Int)
    let expo : Int :=
      match fp.2 with
      | c :: rest =>
        if c = 'e' ∨ c = 'E' then
          let es := splitSignInt rest
          let eds := takeDigits es.2
          if eds.1.length = 0 then 0 else es.1 * (digitsToNat eds.1 : Int)
        else 0
      | [] => 0
    some (mant, fp.1.length, expo)

/-- The rational value of parsed float parts:
sign*(intpart*10^k + fracpart) / 10^k * 10^exponent. -/
def partsToRat (p : Int × Nat × Int) : Rat :=
  (p.1 : Rat) / (10 : Rat) ^ p.2.1 * (10 : Rat) ^ p.2.2

/-- JavaScript parseFloat as an exact rational (none models NaN). -/
def parseFloatJS (s : String) : Option Rat := (parseFloatParts s).map partsToRat

/-- JavaScript parseInt (radix 10): skip leading whitespace, parse sign and
integer digits; none when no digit is consumed (NaN in JS). -/
def parseIntJS (s : String) : Option Int :=
  let cs := s.toList.dropWhile (fun c => c.isWhitespace)
  let sg := splitSignInt cs
  let ip := takeDigits sg.2
  if ip.1.length = 0 then none else some (sg.1 * (digitsToNat ip.1 : Int))

/-- JavaScript String.replace with a plain string pattern replaces only the
FIRST occurrence: model of value.replace(",", ".") in the filter endpoints. -/
def jsReplaceFirstComma (s : String) : String :=
  let rec go : List Char → List Char
    | [] => []
    | c :: cs => if c = ',' then '.' :: cs else c :: go cs
  String.mk (go s.toList)

/-- SQL REPLACE of comma by period replaces every occurrence. -/
def sqlReplaceAllComma (s : String) : String :=
  String.mk (s.toList.map (fun c => if c = ',' then '.' else c))

/-- Structural part of a strict decimal parse for Firebird
CAST(s AS NUMERIC): sign, digits, optional fraction, nothing else; none
models a conversion error. -/
def parseSqlNumericParts (s : String) : Option (Int × Nat) :=
  let cs := s.toList
  let sg := splitSignInt cs
  let ip := takeDigits sg.2
  let fp : List Nat × List Char :=
    match ip.2 with
    | '.' :: rest => takeDigits rest
    | rest => ([], rest)
  if ip.1.length + fp.1.length = 0 ∨ ¬ fp.2.isEmpty then none
  else some (sg.1 * ((digitsToNat ip.1 * 10 ^ fp.1.length + digitsToNat fp.1 : Nat) : Int), fp.1.length)

/-- The CAST value as an exact rational: signed scaled mantissa over 10^k. -/
def parseSqlNumeric (s : String) : Option Rat :=
  (parseSqlNumericParts s).map (fun p => (p.1 : Rat) / (10 : Rat) ^ p.2)

/-- Quantization of NUMERIC(15, 5): round to the nearest multiple of 1e-5
(ties rounded up), the scale used by every dimensional CAST in the source. -/
def quant5 (x : Rat) : Rat := ((round (x * 100000) : Int) : Rat) / 100000

/-- The tolerance constant 0.00001 inlined in the dimensional predicate of
GET /clavesalternas/filter. -/
def numericTolerance : Rat := 1 / 100000

/-- Warehouse-id-to-name table (constant ALMACENES in src/index.js). -/
def ALMACENES : List (String × String) :=
  [("1", "Durango"), ("3", "Fresnillo"), ("5", "Mazatlán"),
   ("6", "Zacatecas"), ("7", "Querétaro"), ("10", "Fresnillo2")]

/-- Pivot column name for a warehouse id (template ALM_X_EXIST). -/
def rawKey (k : String) : String := "ALM_" ++ k ++ "_EXIST"

/-- Value of item[rawKey] ? parseFloat(item[rawKey]) : 0 — a falsy cell
(null, missing, NaN, 0, empty string) yields 0, a numeric cell its value,
a non-empty numeric string its parsed value.  (Stock cells coming from the
driver are numbers; a non-numeric string, which would give NaN in JS, is
mapped to 0 here.) -/
def jsNumOr0 : JVal → Rat
  | .null => 0
  | .nan => 0
  | .num q => if q = 0 then 0 else q
  | .str s => if s = "" then 0 else (parseFloatJS s).getD 0

/-- A raw result row of the product queries: the article key plus the open
map of remaining columns in object-key order. -/
structure SRow where
  cveArt : String
  cols : List (String × JVal)
deriving DecidableEq, Repr

/-- Read a column (missing keys read as null, matching JS undefined in the
code paths modelled here). -/
def getCol (r : SRow) (k : String) : JVal :=
  match r.cols.find? (fun c => c.1 = k) with
  | some c => c.2
  | none => .null

/-- Object spread / assignment semantics: overwrite the column in place if
present, append it otherwise. -/
def setCol (r : SRow) (k : String) (v : JVal) : SRow :=
  if r.cols.any (fun c => c.1 = k) then
    { r with cols := r.cols.map (fun c => if c.1 = k then (c.1, v) else c) }
  else
    { r with cols := r.cols ++ [(k, v)] }

/-- A row after the warehouse pivot: the raw ALM_X_EXIST columns are gone
and an existencias mapping (warehouse name to quantity) has been added. -/
structure ProcRow where
  cveArt : String
  cols : List (String × JVal)
  existencias : List (String × Rat)
deriving DecidableEq, Repr

/-- One step of processExistencias on a single row: build the existencias
object over every configured warehouse and delete the raw pivot columns. -/
def processRow (r : SRow) : ProcRow :=
  { cveArt := r.cveArt,
    cols := r.cols.filter (fun c => ¬ ALMACENES.any (fun p => rawKey p.1 = c.1)),
    existencias := ALMACENES.map (fun p => (p.2, jsNumOr0 (getCol r (rawKey p.1)))) }

/-- processExistencias from src/index.js: map the pivot step over the page. -/
def processExistencias (data : List SRow) : List ProcRow := data.map processRow

/-- Lookup in an association list of warehouse quantities. -/
def lookupRat (l : List (String × Rat)) (k : String) : Option Rat :=
  match l.find? (fun c => c.1 = k) with
  | some c => some c.2
  | none => none

/-- Lookup in an association list of pagination fields. -/
def lookupNat (l : List (String × Nat)) (k : String) : Option Nat :=
  match l.find? (fun c => c.1 = k) with
  | some c => some c.2
  | none => none

/-- A bound SQL parameter: a string, a finite number or NaN (an unparseable
range bound is pushed unchecked in filter-ranges). -/
inductive SqlParam where
  | str (s : String)
  | num (q : Rat)
  | nan
deriving DecidableEq, Repr

/-- filterMap of GET /clavesalternas/filter, in object-literal iteration
order; first component is the lowercased query-parameter name the loop reads
(alias.toLowerCase()), second the SQL column. -/
def filterMap : List (String × String) :=
  [("familia", "T4.CAMPLIB22"), ("diam_int", "T4.CAMPLIB1"),
   ("diam_ext", "T4.CAMPLIB2"), ("altura", "T4.CAMPLIB3"),
   ("seccion", "T4.CAMPLIB7"), ("perfil", "T4.CAMPLIB13"),
   ("sist_med", "T4.CAMPLIB17"), ("colocacion", "T4.CAMPLIB28"),
   ("linea", "T1.LIN_PROD")]

/-- numericDimensionalFields of GET /clavesalternas/filter. -/
def numericDimensionalFields : List String :=
  ["T4.CAMPLIB1", "T4.CAMPLIB2", "T4.CAMPLIB3", "T4.CAMPLIB7"]

/-- The tolerance predicate fragment pushed for a dimensional filter
(apostrophes written \x27). -/
def dimClause (col : String) : String :=
  "ABS(CAST(REPLACE(COALESCE(NULLIF(TRIM(" ++ col ++
  "), \x27\x27), \x270\x27), \x27,\x27, \x27.\x27) AS NUMERIC(15, 5)) - CAST(? AS NUMERIC(15, 5))) <= 0.00001"

/-- The NULL-safe substring fragment pushed for a text filter. -/
def textClause (col : String) : String :=
  "UPPER(TRIM(COALESCE(" ++ col ++ ", \x27\x27))) LIKE ?"

/-- One iteration of the WHERE-building loop of GET /clavesalternas/filter:
skip absent/falsy values, trim, skip values collapsing to empty, then either
push the tolerance predicate with the parsed number (skipping NaN) or the
LIKE predicate with the uppercased %value%. -/
def filterStep (q : String → Option String) (acc : List String × List SqlParam)
    (f : String × String) : List String × List SqlParam :=
  match q f.1 with
  | none => acc
  | some raw =>
    if raw = "" then acc
    else
      let v := jsTrim raw
      if v = "" then acc
      else if numericDimensionalFields.contains f.2 then
        match parseFloatJS (jsReplaceFirstComma v) with
        | none => acc
        | some x => (acc.1 ++ [dimClause f.2], acc.2 ++ [SqlParam.num x])
      else
        (acc.1 ++ [textClause f.2], acc.2 ++ [SqlParam.str ("%" ++ jsToUpper v ++ "%")])

/-- whereClauses/params of GET /clavesalternas/filter: the required
structural predicate T2.TIPO = 'P' followed by the dynamic predicates. -/
def filterWhereParams (q : String → Option String) : List String × List SqlParam :=
  filterMap.foldl (filterStep q) (["T2.TIPO = \x27P\x27"], [])

/-- whereString assembly shared by both filter endpoints. -/
def whereStringOf (wcs : List String) : String :=
  "WHERE " ++ String.intercalate (" AND ") wcs

/-- dimensionalFields of GET /clavesalternas/filter-ranges (pairs come in as
alias_min / alias_max query parameters). -/
def rangeDims : List (String × String) :=
  [("diam_int", "T4.CAMPLIB1"), ("diam_ext", "T4.CAMPLIB2"),
   ("altura", "T4.CAMPLIB3"), ("seccion", "T4.CAMPLIB7")]

/-- extraFilters of GET /clavesalternas/filter-ranges. -/
def rangeExtra : List (String × String) :=
  [("familia", "T4.CAMPLIB22"), ("colocacion", "T4.CAMPLIB28"),
   ("linea", "T1.LIN_PROD"), ("perfil", "T4.CAMPLIB13"),
   ("sist_med", "T4.CAMPLIB17")]

/-- BETWEEN fragment pushed for a dimensional range. -/
def rangeDimClause (col : String) : String :=
  "CAST(REPLACE(COALESCE(NULLIF(TRIM(" ++ col ++
  "), \x27\x27), \x270\x27), \x27,\x27, \x27.\x27) AS NUMERIC(15, 5)) BETWEEN CAST(? AS NUMERIC(15, 5)) AND CAST(? AS NUMERIC(15, 5))"

/-- parseFloat(bound.replace(",", ".")) pushed as a parameter, NaN included. -/
def floatParam (s : String) : SqlParam :=
  match parseFloatJS (jsReplaceFirstComma s) with
  | none => SqlParam.nan
  | some x => SqlParam.num x

/-- Range loop body: a predicate is pushed only when BOTH bounds are present
(empty strings included — they parse to NaN parameters). -/
def rangeDimStep (q : String → Option String) (acc : List String × List SqlParam)
    (f : String × String) : List String × List SqlParam :=
  match q (f.1 ++ "_min"), q (f.1 ++ "_max") with
  | some mn, some mx =>
    (acc.1 ++ [rangeDimClause f.2], acc.2 ++ [floatParam mn, floatParam mx])
  | _, _ => acc

/-- Text-filter loop body of filter-ranges (truthy check only; the pushed
parameter is %value.toUpperCase().trim()%). -/
def rangeTextStep (q : String → Option String) (acc : List String × List SqlParam)
    (f : String × String) : List String × List SqlParam :=
  match q f.1 with
  | none => acc
  | some v =>
    if v = "" then acc
    else (acc.1 ++ [textClause f.2], acc.2 ++ [SqlParam.str ("%" ++ jsTrim (jsToUpper v) ++ "%")])

/-- whereClauses/params of GET /clavesalternas/filter-ranges. -/
def rangesWhereParams (q : String → Option String) : List String × List SqlParam :=
  rangeExtra.foldl (rangeTextStep q)
    (rangeDims.foldl (rangeDimStep q) (["T2.TIPO = \x27P\x27"], []))

/-- cvePrecio of GET /clavesalternas/filter and /search:
SUCURSAL ? SUCURSAL.toString() : "1" (an empty string is falsy). -/
def cvePrecioStr (SUCURSAL : Option String) : String :=
  match SUCURSAL with
  | none => ("1")
  | some s => if s = "" then ("1") else s

/-- cvePrecio of GET /clavesalternas/filter-ranges:
SUCURSAL ? parseInt(SUCURSAL) : 1. -/
def cvePrecioRanges (SUCURSAL : Option String) : SqlParam :=
  match SUCURSAL with
  | none => SqlParam.num 1
  | some s =>
    if s = "" then SqlParam.num 1
    else
      match parseIntJS s with
      | none => SqlParam.nan
      | some i => SqlParam.num (i : Rat)

/-- Parameter list of the COUNT query of GET /clavesalternas/filter
(db.query(countSql, params)). -/
def filterCountParams (q : String → Option String) : List SqlParam :=
  (filterWhereParams q).2

/-- Parameter list of the DATA query of GET /clavesalternas/filter
(db.query(dataSql, [cvePrecio, ...params])). -/
def filterDataParams (SUCURSAL : Option String) (q : String → Option String) : List SqlParam :=
  SqlParam.str (cvePrecioStr SUCURSAL) :: (filterWhereParams q).2

/-- Parameter list of the COUNT query of GET /clavesalternas/filter-ranges. -/
def rangesCountParams (q : String → Option String) : List SqlParam :=
  (rangesWhereParams q).2

/-- Parameter list of the DATA query of GET /clavesalternas/filter-ranges. -/
def rangesDataParams (SUCURSAL : Option String) (q : String → Option String) : List SqlParam :=
  cvePrecioRanges SUCURSAL :: (rangesWhereParams q).2

/-- Last-write-wins map built from the secondary-store result rows
(res3.forEach(r => map3[r.ART] = r.EXIST)). -/
def map3Lookup (rows3 : List (String × Rat)) (k : String) : Option Rat :=
  rows3.foldl (fun acc r => if r.1 = k then some r.2 else acc) none

/-- map3[key] || 0 — undefined and 0 both give 0. -/
def jsOr0 (o : Option Rat) : Rat :=
  match o with
  | none => 0
  | some v => if v = 0 then 0 else v

/-- Merge step of the cross-store reconciler on success: every row of the
page receives ALM_10_EXIST from the secondary map keyed by the trimmed
article key, defaulting to 0 on a miss. -/
def enrichWithDb3 (rows : List SRow) (rows3 : List (String × Rat)) : List SRow :=
  rows.map (fun r => setCol r ("ALM_10_EXIST") (.num (jsOr0 (map3Lookup rows3 (jsTrim r.cveArt)))))

/-- Degraded merge used by the catch branches: ALM_10_EXIST is 0 everywhere. -/
def enrichDefault (rows : List SRow) : List SRow :=
  rows.map (fun r => setCol r ("ALM_10_EXIST") (.num 0))

/-- SELECT FIRST limit SKIP offset semantics over the ordered match list. -/
def sqlPage (limit offset : Nat) (rows : List SRow) : List SRow :=
  (rows.drop offset).take limit

/-- Body of an HTTP JSON response in this API: a bare array of processed
rows, a data-plus-pagination envelope, or an error message. -/
inductive RespBody where
  | rows (rs : List ProcRow)
  | envelope (data : List ProcRow) (pagination : List (String × Nat))
  | errMsg (m : String)
deriving DecidableEq, Repr

/-- An HTTP response: status code and JSON body. -/
structure Resp where
  status : Nat
  body : RespBody
deriving DecidableEq, Repr

/-- Pagination association list of the response (none for bare arrays and
errors). -/
def getPagination (r : Resp) : Option (List (String × Nat)) :=
  match r.body with
  | .envelope _ p => some p
  | _ => none

/-- Data array of an envelope response. -/
def getData (r : Resp) : Option (List ProcRow) :=
  match r.body with
  | .envelope d _ => some d
  | _ => none

/-- Row array of a bare-array response. -/
def getRows (r : Resp) : Option (List ProcRow) :=
  match r.body with
  | .rows rs => some rs
  | _ => none

/-- searchTerm of GET /clavesalternas/search:
query ? query.toUpperCase().trim() : "". -/
def searchTermOf (query : Option String) : String :=
  match query with
  | none => ("")
  | some q => if q = "" then ("") else jsTrim (jsToUpper q)

/-- Handler of GET /clavesalternas/search (the active revision).  The
primary query result and the secondary-store (db3/MULT03) result are oracle
inputs.  An empty search term short-circuits to 400; a primary failure is
500; the secondary query runs only on a non-empty result and its failure is
caught in an inner try, defaulting ALM_10_EXIST to 0. -/
def searchHandler (query SUCURSAL : Option String)
    (primary : Except String (List SRow))
    (secondary : Except String (List (String × Rat))) : Resp :=
  let searchTerm := searchTermOf query
  if searchTerm = "" then
    { status := 400, body := .errMsg ("Debes proporcionar un termino de busqueda.") }
  else
    match primary with
    | .error e => { status := 500, body := .errMsg e }
    | .ok rows =>
      let rows2 :=
        if rows.isEmpty then rows
        else
          match secondary with
          | .ok r3 => enrichWithDb3 rows r3
          | .error _ => enrichDefault rows
      { status := 200, body := .rows (processExistencias rows2) }

/-- Handler of GET /clavesalternas/filter (the active revision).  countResult
models db.query(countSql, params) returning TOTAL; dataResult models
db.query(dataSql, [cvePrecio, ...params]) returning the full ordered match
list, to which FIRST/SKIP paging is applied.  The db3 enrichment of a
non-empty page is NOT guarded by an inner try/catch: its failure falls
through to the outer catch and produces a 500.  The pagination object holds
only totalRecords and limit. -/
def filterHandler (limit offset : Nat) (q : String → Option String)
    (SUCURSAL : Option String)
    (countResult : Except String Nat)
    (dataResult : Except String (List SRow))
    (secondary : Except String (List (String × Rat))) : Resp :=
  match countResult with
  | .error e => { status := 500, body := .errMsg e }
  | .ok total =>
    match dataResult with
    | .error e => { status := 500, body := .errMsg e }
    | .ok matching =>
      let page := sqlPage limit offset matching
      if page.isEmpty then
        { status := 200,
          body := .envelope (processExistencias page)
            [("totalRecords", total), ("limit", limit)] }
      else
        match secondary with
        | .error e => { status := 500, body := .errMsg e }
        | .ok r3 =>
          { status := 200,
            body := .envelope (processExistencias (enrichWithDb3 page r3))
              [("totalRecords", total), ("limit", limit)] }

/-- Pagination object of GET /clavesalternas/filter-ranges:
totalRecords, totalPages = Math.ceil(total / limit),
currentPage = Math.floor(offset / limit) + 1, limit. -/
def rangesPagination (total limit offset : Nat) : List (String × Nat) :=
  [("totalRecords", total), ("totalPages", (total + limit - 1) / limit),
   ("currentPage", offset / limit + 1), ("limit", limit)]

/-- Handler of GET /clavesalternas/filter-ranges (the active revision).  The
db3 enrichment of a non-empty page IS guarded by an inner try/catch and
degrades to ALM_10_EXIST = 0 on failure. -/
def filterRangesHandler (limit offset : Nat)
    (countResult : Except String Nat)
    (dataResult : Except String (List SRow))
    (secondary : Except String (List (String × Rat))) : Resp :=
  match countResult with
  | .error e => { status := 500, body := .errMsg e }
  | .ok total =>
    match dataResult with
    | .error e => { status := 500, body := .errMsg e }
    | .ok matching =>
      let page := sqlPage limit offset matching
      let page2 :=
        if page.isEmpty then page
        else
          match secondary with
          | .ok r3 => enrichWithDb3 page r3
          | .error _ => enrichDefault page
      { status := 200,
        body := .envelope (processExistencias page2) (rangesPagination total limit offset) }

/-- A row of the MULT02 / MULT03 stock tables. -/
structure MRow where
  cveArt : String
  cveAlm : Nat
  exist : Rat
deriving DecidableEq, Repr

/-- WHERE predicate of POST /existencias-masiva-filtrada:
CVE_ART IN (claves) AND CVE_ALM IN (1, 6). -/
def masivaPred (claves : List String) (r : MRow) : Bool :=
  claves.contains r.cveArt && (r.cveAlm = 1 || r.cveAlm = 6)

/-- ORDER BY CVE_ART, CVE_ALM as a boolean total preorder. -/
def masivaLe (a b : MRow) : Bool :=
  decide (a.cveArt < b.cveArt) ||
    (decide (a.cveArt = b.cveArt) && decide (a.cveAlm ≤ b.cveAlm))

/-- Outcome of POST /existencias-masiva-filtrada, with a flag recording
whether a store query was issued at all. -/
structure MasivaOut where
  status : Nat
  rows : List MRow
  dbQueried : Bool
deriving DecidableEq, Repr

/-- Handler of POST /existencias-masiva-filtrada: a body whose claves field
is not a non-empty array answers 400 without touching the store; otherwise
the MULT02 query filters by the supplied keys and warehouses 1 and 6 and
orders by key then warehouse. -/
def masivaHandler (claves : Option (List String)) (table : List MRow) : MasivaOut :=
  match claves with
  | none => { status := 400, rows := [], dbQueried := false }
  | some cs =>
    if cs.isEmpty then { status := 400, rows := [], dbQueried := false }
    else
      { status := 200,
        rows := (table.filter (masivaPred cs)).mergeSort masivaLe,
        dbQueried := true }

/-- Denylist of GET /familias (constant excluir in src/index.js). -/
def excluir : List String :=
  ["ACC. ANCLAJE", "ADHES", "AJUSTADOR", "ANILLO", "BARRA", "BUJE",
   "COMP. SIST. HIDR.", "COMPRESOR", "CONEXIONES", "COPA", "COPA PISTON",
   "DRING", "EMBOLOS", "ESTOPEROS", "ESTUC", "HERRAM", "KIT", "LUBRIC",
   "MANGUERAS", "SELLO MECANICO", "SUJETADOR", "TAPAS", "TUBO"]

/-- Row filter of the GET /familias query: CAMPLIB22 IS NOT NULL AND
CAMPLIB22 <> q(empty) AND UPPER(TRIM(CAMPLIB22)) NOT IN (excluir). -/
def familiaKept (v : String) : Bool :=
  v ≠ "" && ¬ excluir.contains (jsToUpper (jsTrim v))

/-- Result of the GET /familias query: SELECT DISTINCT CAMPLIB22 with the
NULL/empty/denylist filter, ORDER BY FAMILIA. -/
def familiasResult (t : List (Option String)) : List String :=
  (((t.filterMap id).filter familiaKept).dedup).mergeSort (fun a b => decide (a ≤ b))

/-- Number of parameter placeholders in a SQL fragment. -/
def qMarkCount (s : String) : Nat := s.toList.countP (fun c => c = '?')

/-- Selected columns of the /clavesalternas/filter data query (whitespace
condensed; apostrophes written \x27). -/
def filterDataCols : String :=
  " T1.CVE_ART, T1.DESCR, T1.UNI_MED, T1.FCH_ULTCOM, T1.ULT_COSTO, T1.LIN_PROD, T4.CAMPLIB1 AS DIAM_INT, T4.CAMPLIB2 AS DIAM_EXT, T4.CAMPLIB3 AS ALTURA, T4.CAMPLIB7 AS SECCION, T4.CAMPLIB13 AS PERFIL, T4.CAMPLIB15 AS CLA_SYR, T4.CAMPLIB16 AS CLA_LC, T4.CAMPLIB17 AS SIST_MED, T4.CAMPLIB19 AS DESC_ECOMM, T4.CAMPLIB21 AS GENERO, T4.CAMPLIB22 AS FAMILIA, T4.CAMPLIB28 AS COLOCACION, COALESCE(MAX(T5.PRECIO), 0.00) AS PRECIO, MAX(CASE WHEN TRIM(T2.CVE_CLPV) = \x273\x27 THEN T2.CVE_ALTER ELSE NULL END) AS PROV1, MAX(CASE WHEN TRIM(T2.CVE_CLPV) = \x2735\x27 THEN T2.CVE_ALTER ELSE NULL END) AS PROV2, COALESCE(MAX(CASE WHEN T6.CVE_ALM = 1 THEN T6.EXIST ELSE NULL END), 0) AS ALM_1_EXIST, COALESCE(MAX(CASE WHEN T6.CVE_ALM = 3 THEN T6.EXIST ELSE NULL END), 0) AS ALM_3_EXIST, COALESCE(MAX(CASE WHEN T6.CVE_ALM = 5 THEN T6.EXIST ELSE NULL END), 0) AS ALM_5_EXIST, COALESCE(MAX(CASE WHEN T6.CVE_ALM = 6 THEN T6.EXIST ELSE NULL END), 0) AS ALM_6_EXIST, COALESCE(MAX(CASE WHEN T6.CVE_ALM = 7 THEN T6.EXIST ELSE NULL END), 0) AS ALM_7_EXIST"

/-- FROM/JOIN section of the /clavesalternas/filter data query; it holds the
single price-join placeholder (bound to cvePrecio) ahead of the WHERE. -/
def filterDataJoins : String :=
  " FROM INVE02 T1 INNER JOIN CVES_ALTER02 T2 ON T1.CVE_ART = T2.CVE_ART LEFT JOIN INVE_CLIB02 T4 ON T1.CVE_ART = T4.CVE_PROD LEFT JOIN PRECIO_X_PROD02 T5 ON (T1.CVE_ART = T5.CVE_ART AND TRIM(T5.CVE_PRECIO) = CAST(? AS VARCHAR(10))) LEFT JOIN MULT02 T6 ON T1.CVE_ART = T6.CVE_ART "

/-- Everything of the /clavesalternas/filter data query before the
interpolated whereString. -/
def filterDataHead (limit offset : Nat) : String :=
  "SELECT FIRST " ++ toString limit ++ " SKIP " ++ toString offset ++
    filterDataCols ++ filterDataJoins

/-- Tail of the /clavesalternas/filter data query after the whereString. -/
def filterDataSuffix : String :=
  " GROUP BY 1,2,3,4,5,6,7,8,9,10,11,12,13,14,15,16,17,18 ORDER BY T1.CVE_ART;"

/-- dataSql of GET /clavesalternas/filter. -/
def filterDataSqlText (limit offset : Nat) (ws : String) : String :=
  filterDataHead limit offset ++ ws ++ filterDataSuffix

/-- countSql of GET /clavesalternas/filter before the whereString. -/
def filterCountHead : String :=
  "SELECT COUNT(DISTINCT T1.CVE_ART) AS TOTAL FROM INVE02 T1 INNER JOIN CVES_ALTER02 T2 ON T1.CVE_ART = T2.CVE_ART LEFT JOIN INVE_CLIB02 T4 ON T1.CVE_ART = T4.CVE_PROD "

/-- countSql of GET /clavesalternas/filter. -/
def filterCountSqlText (ws : String) : String := filterCountHead ++ ws

/-- Selected columns of the /clavesalternas/filter-ranges data query (the
warehouse pivot compares CVE_ALM against quoted ids here). -/
def rangesDataCols : String :=
  " T1.CVE_ART, T1.DESCR, T1.UNI_MED, T1.FCH_ULTCOM, T1.ULT_COSTO, T1.LIN_PROD, T4.CAMPLIB1 AS DIAM_INT, T4.CAMPLIB2 AS DIAM_EXT, T4.CAMPLIB3 AS ALTURA, T4.CAMPLIB7 AS SECCION, T4.CAMPLIB13 AS PERFIL, T4.CAMPLIB15 AS CLA_SYR, T4.CAMPLIB16 AS CLA_LC, T4.CAMPLIB17 AS SIST_MED, T4.CAMPLIB19 AS DESC_ECOMM, T4.CAMPLIB21 AS GENERO, T4.CAMPLIB22 AS FAMILIA, T4.CAMPLIB28 AS COLOCACION, COALESCE(MAX(T5.PRECIO), 0.00) AS PRECIO, MAX(CASE WHEN TRIM(T2.CVE_CLPV) = \x273\x27 THEN T2.CVE_ALTER ELSE NULL END) AS PROV1, MAX(CASE WHEN TRIM(T2.CVE_CLPV) = \x2735\x27 THEN T2.CVE_ALTER ELSE NULL END) AS PROV2, MAX(CASE WHEN T6.CVE_ALM = \x271\x27 THEN T6.EXIST ELSE NULL END) AS ALM_1_EXIST, MAX(CASE WHEN T6.CVE_ALM = \x273\x27 THEN T6.EXIST ELSE NULL END) AS ALM_3_EXIST, MAX(CASE WHEN T6.CVE_ALM = \x275\x27 THEN T6.EXIST ELSE NULL END) AS ALM_5_EXIST, MAX(CASE WHEN T6.CVE_ALM = \x276\x27 THEN T6.EXIST ELSE NULL END) AS ALM_6_EXIST, MAX(CASE WHEN T6.CVE_ALM = \x277\x27 THEN T6.EXIST ELSE NULL END) AS ALM_7_EXIST"

/-- FROM/JOIN section of the /clavesalternas/filter-ranges data query. -/
def rangesDataJoins : String :=
  " FROM INVE02 T1 INNER JOIN CVES_ALTER02 T2 ON T1.CVE_ART = T2.CVE_ART LEFT JOIN INVE_CLIB02 T4 ON T1.CVE_ART = T4.CVE_PROD LEFT JOIN PRECIO_X_PROD02 T5 ON T1.CVE_ART = T5.CVE_ART AND TRIM(T5.CVE_PRECIO) = CAST(? AS VARCHAR(10)) LEFT JOIN MULT02 T6 ON T1.CVE_ART = T6.CVE_ART "

/-- Everything of the filter-ranges data query before the whereString. -/
def rangesDataHead (limit offset : Nat) : String :=
  "SELECT FIRST " ++ toString limit ++ " SKIP " ++ toString offset ++
    rangesDataCols ++ rangesDataJoins

/-- Tail of the filter-ranges data query after the whereString. -/
def rangesDataSuffix : String :=
  " GROUP BY 1,2,3,4,5,6,7,8,9,10,11,12,13,14,15,16,17,18 ORDER BY T1.CVE_ART;"

/-- dataSql of GET /clavesalternas/filter-ranges. -/
def rangesDataSqlText (limit offset : Nat) (ws : String) : String :=
  rangesDataHead limit offset ++ ws ++ rangesDataSuffix

/-- countSql of GET /clavesalternas/filter-ranges before the whereString. -/
def rangesCountHead : String :=
  "SELECT COUNT(DISTINCT T1.CVE_ART) AS TOTAL_REGISTROS FROM INVE02 T1 INNER JOIN CVES_ALTER02 T2 ON T1.CVE_ART = T2.CVE_ART LEFT JOIN INVE_CLIB02 T4 ON T1.CVE_ART = T4.CVE_PROD "

/-- countSql of GET /clavesalternas/filter-ranges. -/
def rangesCountSqlText (ws : String) : String := rangesCountHead ++ ws ++ ";"

/-- Normalized value and SQL expression of a stored dimensional cell:
TRIM, NULLIF to catch blanks, COALESCE to the literal zero string, comma to
period, CAST to NUMERIC(15, 5). -/
def dimStoredText (cell : Option String) : String :=
  match cell with
  | none => ("0")
  | some s => if jsTrim s = "" then ("0") else jsTrim s

/-- The stored-side value the tolerance predicate compares: parse the
normalized text and quantize to the NUMERIC(15, 5) grid (none models a SQL
conversion error on malformed text). -/
def dimStoredVal (cell : Option String) : Option Rat :=
  (parseSqlNumeric (sqlReplaceAllComma (dimStoredText cell))).map quant5

/-- Row-level evaluation of the dimensional tolerance predicate of
GET /clavesalternas/filter: ABS(stored - CAST(target AS NUMERIC(15, 5)))
compared against the 0.00001 literal. -/
def evalDimPredicate (cell : Option String) (target : Rat) : Option Bool :=
  (dimStoredVal cell).map (fun v => decide (|v - quant5 target| ≤ numericTolerance))

theorem qMark_append (a b : String) : qMarkCount (a ++ b) = qMarkCount a + qMarkCount b := by
  simp [qMarkCount, String.toList, List.countP_append]

theorem qMark_sep : qMarkCount (" AND ") = 0 := by decide

theorem qMark_intercalate_go (l : List String) : ∀ acc : String,
    qMarkCount (String.intercalate.go acc (" AND ") l)
      = qMarkCount acc + (l.map qMarkCount).sum := by
  induction l with
  | nil => intro acc; simp [String.intercalate.go]
  | cons a as ih =>
    intro acc
    have h := qMark_sep
    simp only [String.intercalate.go, ih, List.map_cons, List.sum_cons, qMark_append, h]
    omega

theorem qMark_whereString (wcs : List String) :
    qMarkCount (whereStringOf wcs) = (wcs.map qMarkCount).sum := by
  cases wcs with
  | nil => simp [whereStringOf, String.intercalate]; decide
  | cons a as =>
    have hw : qMarkCount ("WHERE ") = 0 := by decide
    simp [whereStringOf, String.intercalate, qMark_append, hw, qMark_intercalate_go]

theorem find?_set_list (k : String) (v : JVal) : ∀ (cols : List (String × JVal)),
    cols.any (fun c => c.1 = k) = true →
    (cols.map (fun c => if c.1 = k then (c.1, v) else c)).find? (fun c => c.1 = k)
      = some (k, v)
  | [], h => by simp at h
  | c :: cs, h => by
    by_cases hc : c.1 = k
    · simp [List.find?, hc]
    · simp only [List.any_cons, Bool.or_eq_true, decide_eq_true_eq] at h
      rcases h with h | h
      · exact absurd h hc
      · simp only [List.map_cons, hc, if_false, List.find?_cons, decide_False]
        exact find?_set_list k v cs h

theorem getCol_setCol (r : SRow) (k : String) (v : JVal) :
    getCol (setCol r k v) k = v := by
  unfold getCol setCol
  by_cases h : r.cols.any (fun c => c.1 = k) = true
  · simp only [h, if_true]
    rw [find?_set_list k v r.cols h]
  · simp only [h, if_false]
    have hnone : r.cols.find? (fun c => c.1 = k) = none := by
      rw [List.find?_eq_none]
      intro c hc
      simp only [decide_eq_true_eq]
      intro hk
      exact h (List.any_of_mem hc (by simpa using hk))
    simp [List.find?_append, hnone, List.find?]

theorem lookupRat_processRow_fresnillo2 (r : SRow) :
    lookupRat (processRow r).existencias ("Fresnillo2")
      = some (jsNumOr0 (getCol r ("ALM_10_EXIST"))) := by
  simp [processRow, ALMACENES, lookupRat, rawKey, List.find?]

theorem natFloorDiv (a b : Nat) : ⌊(a : ℚ) / (b : ℚ)⌋₊ = a / b := by
  rw [Nat.floor_div_nat, Nat.floor_natCast]

theorem natCeilDiv (a b : Nat) (hb : 0 < b) :
    ⌈(a : ℚ) / (b : ℚ)⌉₊ = (a + b - 1) / b := by
  rcases Nat.eq_zero_or_pos a with ha | ha
  · subst ha
    simp only [Nat.cast_zero, zero_div, Nat.ceil_zero, Nat.zero_add]
    rw [eq_comm, Nat.div_eq_of_lt] <;> omega
  · have hbq : (0 : ℚ) < (b : ℚ) := by exact_mod_cast hb
    set n := (a + b - 1) / b with hn
    have hmod : b * n + (a + b - 1) % b = a + b - 1 := Nat.div_add_mod _ _
    rw [Nat.mul_comm b n] at hmod
    have hrlt : (a + b - 1) % b < b := Nat.mod_lt _ hb
    have hn1 : 1 ≤ n := by
      rw [hn, Nat.le_div_iff_mul_le hb]
      omega
    have hsm : (n - 1) * b = n * b - b := by rw [Nat.sub_mul, one_mul]
    have hub : a ≤ n * b := by omega
    have hlb : (n - 1) * b < a := by rw [hsm]; omega
    rw [Nat.ceil_eq_iff (by omega : n ≠ 0)]
    constructor
    · rw [lt_div_iff₀ hbq]
      exact_mod_cast hlb
    · rw [div_le_iff₀ hbq]
      exact_mod_cast hub

theorem qMark_dimClause (col : String) :
    qMarkCount (dimClause col) = qMarkCount col + 1 := by
  unfold dimClause
  rw [qMark_append, qMark_append]
  have h1 : qMarkCount ("ABS(CAST(REPLACE(COALESCE(NULLIF(TRIM(") = 0 := by decide
  have h2 : qMarkCount ("), \x27\x27), \x270\x27), \x27,\x27, \x27.\x27) AS NUMERIC(15, 5)) - CAST(? AS NUMERIC(15, 5))) <= 0.00001") = 1 := by decide
  omega

theorem qMark_textClause (col : String) :
    qMarkCount (textClause col) = qMarkCount col + 1 := by
  unfold textClause
  rw [qMark_append, qMark_append]
  have h1 : qMarkCount ("UPPER(TRIM(COALESCE(") = 0 := by decide
  have h2 : qMarkCount (", \x27\x27))) LIKE ?") = 1 := by decide
  omega

theorem qMark_rangeDimClause (col : String) :
    qMarkCount (rangeDimClause col) = qMarkCount col + 2 := by
  unfold rangeDimClause
  rw [qMark_append, qMark_append]
  have h1 : qMarkCount ("CAST(REPLACE(COALESCE(NULLIF(TRIM(") = 0 := by decide
  have h2 : qMarkCount ("), \x27\x27), \x270\x27), \x27,\x27, \x27.\x27) AS NUMERIC(15, 5)) BETWEEN CAST(? AS NUMERIC(15, 5)) AND CAST(? AS NUMERIC(15, 5))") = 2 := by decide
  omega

theorem filterStep_qmark (q : String → Option String) (acc : List String × List SqlParam)
    (f : String × String) (hf : qMarkCount f.2 = 0)
    (h : (acc.1.map qMarkCount).sum = acc.2.length) :
    ((filterStep q acc f).1.map qMarkCount).sum = (filterStep q acc f).2.length := by
  unfold filterStep
  cases hq : q f.1 with
  | none => exact h
  | some raw =>
    by_cases h1 : raw = ""
    · simp only [h1, if_pos rfl]
      exact h
    · simp only [if_neg h1]
      by_cases h2 : jsTrim raw = ""
      · simp only [h2, if_pos rfl]
        exact h
      · simp only [if_neg h2]
        by_cases h3 : numericDimensionalFields.contains f.2 = true
        · rw [if_pos h3]
          cases parseFloatJS (jsReplaceFirstComma (jsTrim raw)) with
          | none => exact h
          | some x =>
            simp only [List.map_append, List.sum_append, List.length_append,
              List.map_cons, List.map_nil, List.sum_cons, List.sum_nil,
              List.length_cons, List.length_nil, qMark_dimClause, hf, h]
            omega
        · rw [if_neg h3]
          simp only [List.map_append, List.sum_append, List.length_append,
            List.map_cons, List.map_nil, List.sum_cons, List.sum_nil,
            List.length_cons, List.length_nil, qMark_textClause, hf, h]
          omega

theorem filterFold_qmark (q : String → Option String) :
    ∀ (l : List (String × String)), (∀ f ∈ l, qMarkCount f.2 = 0) →
    ∀ (acc : List String × List SqlParam),
    (acc.1.map qMarkCount).sum = acc.2.length →
    (((l.foldl (filterStep q) acc).1.map qMarkCount).sum
      = (l.foldl (filterStep q) acc).2.length)
  | [], _, acc, h => h
  | f :: fs, hl, acc, h => by
    simp only [List.foldl_cons]
    exact filterFold_qmark q fs (fun g hg => hl g (List.mem_cons_of_mem f hg)) _
      (filterStep_qmark q acc f (hl f (List.mem_cons_self f fs)) h)

theorem rangeDimStep_qmark (q : String → Option String) (acc : List String × List SqlParam)
    (f : String × String) (hf : qMarkCount f.2 = 0)
    (h : (acc.1.map qMarkCount).sum = acc.2.length) :
    ((rangeDimStep q acc f).1.map qMarkCount).sum = (rangeDimStep q acc f).2.length := by
  unfold rangeDimStep
  cases hmn : q (f.1 ++ "_min") with
  | none => simpa [hmn] using h
  | some mn =>
    cases hmx : q (f.1 ++ "_max") with
    | none => exact h
    | some mx =>
      simp only [List.map_append, List.sum_append, List.length_append,
        List.map_cons, List.map_nil, List.sum_cons, List.sum_nil,
        List.length_cons, List.length_nil, qMark_rangeDimClause, hf, h]
      omega

theorem rangeTextStep_qmark (q : String → Option String) (acc : List String × List SqlParam)
    (f : String × String) (hf : qMarkCount f.2 = 0)
    (h : (acc.1.map qMarkCount).sum = acc.2.length) :
    ((rangeTextStep q acc f).1.map qMarkCount).sum = (rangeTextStep q acc f).2.length := by
  unfold rangeTextStep
  cases hv : q f.1 with
  | none => exact h
  | some v =>
    by_cases h1 : v = ""
    · simp only [h1, if_pos rfl]
      exact h
    · simp only [if_neg h1]
      simp only [List.map_append, List.sum_append, List.length_append,
        List.map_cons, List.map_nil, List.sum_cons, List.sum_nil,
        List.length_cons, List.length_nil, qMark_textClause, hf, h]
      omega

theorem rangeDimFold_qmark (q : String → Option String) :
    ∀ (l : List (String × String)), (∀ f ∈ l, qMarkCount f.2 = 0) →
    ∀ (acc : List String × List SqlParam),
    (acc.1.map qMarkCount).sum = acc.2.length →
    (((l.foldl (rangeDimStep q) acc).1.map qMarkCount).sum
      = (l.foldl (rangeDimStep q) acc).2.length)
  | [], _, acc, h => h
  | f :: fs, hl, acc, h => by
    simp only [List.foldl_cons]
    exact rangeDimFold_qmark q fs (fun g hg => hl g (List.mem_cons_of_mem f hg)) _
      (rangeDimStep_qmark q acc f (hl f (List.mem_cons_self f fs)) h)

theorem rangeTextFold_qmark (q : String → Option String) :
    ∀ (l : List (String × String)), (∀ f ∈ l, qMarkCount f.2 = 0) →
    ∀ (acc : List String × List SqlParam),
    (acc.1.map qMarkCount).sum = acc.2.length →
    (((l.foldl (rangeTextStep q) acc).1.map qMarkCount).sum
      = (l.foldl (rangeTextStep q) acc).2.length)
  | [], _, acc, h => h
  | f :: fs, hl, acc, h => by
    simp only [List.foldl_cons]
    exact rangeTextFold_qmark q fs (fun g hg => hl g (List.mem_cons_of_mem f hg)) _
      (rangeTextStep_qmark q acc f (hl f (List.mem_cons_self f fs)) h)

theorem filterWhere_qmark (q : String → Option String) :
    qMarkCount (whereStringOf (filterWhereParams q).1) = (filterWhereParams q).2.length := by
  rw [qMark_whereString]
  exact filterFold_qmark q filterMap (by decide) _ (by decide)

theorem rangesWhere_qmark (q : String → Option String) :
    qMarkCount (whereStringOf (rangesWhereParams q).1) = (rangesWhereParams q).2.length := by
  rw [qMark_whereString]
  unfold rangesWhereParams
  exact rangeTextFold_qmark q rangeExtra (by decide) _
    (rangeDimFold_qmark q rangeDims (by decide) _ (by decide))

/-- C4: For every GET /clavesalternas/filter request with a dimensional
filter whose cleaned value parses to a number V (quantized by the
CAST(? AS NUMERIC(15, 5)) binding), the generated predicate matches exactly
the rows whose stored dimensional value V-prime (blank/NULL coalesced to the
zero string, commas normalized, cast to NUMERIC(15, 5)) lies within absolute
difference 1e-5 of V — the boundary exactly at the tolerance matches — and
evaluates to false exactly when the difference exceeds 1e-5. -/
theorem c4_dimensional_tolerance (cell : Option String) (target V2 : Rat)
    (hs : dimStoredVal cell = some V2) (hq : quant5 target = target) :
    (evalDimPredicate cell target = some true ↔ |target - V2| ≤ numericTolerance)
    ∧ (evalDimPredicate cell target = some false ↔ numericTolerance < |target - V2|) := by
  unfold evalDimPredicate
  rw [hs]
  simp only [Option.map_some']
  rw [hq]
  constructor
  · simp [abs_sub_comm V2 target]
  · simp [abs_sub_comm V2 target, not_le]

/-- Witness for C4 at the boundary: stored text 1,00002 against target
1.00001 differs by exactly the tolerance and matches; stored 1,00003
differs by 2e-5 and does not match. -/
theorem c4_witness :
    evalDimPredicate (some ("1,00002")) ((100001 : Rat) / 100000) = some true
    ∧ evalDimPredicate (some ("1,00003")) ((100001 : Rat) / 100000) = some false := by
  have hq : quant5 ((100001 : Rat) / 100000) = (100001 : Rat) / 100000 := by
    unfold quant5
    rw [round_eq]
    norm_num
  have hs1 : dimStoredVal (some ("1,00002")) = some ((100002 : Rat) / 100000) := by
    unfold dimStoredVal parseSqlNumeric
    rw [show sqlReplaceAllComma (dimStoredText (some ("1,00002"))) = "1.00002" from by decide]
    rw [show parseSqlNumericParts ("1.00002") = some ((100002 : Int), 5) from by decide]
    simp only [Option.map_some']
    congr 1
    unfold quant5
    rw [round_eq]
    norm_num
  have hs2 : dimStoredVal (some ("1,00003")) = some ((100003 : Rat) / 100000) := by
    unfold dimStoredVal parseSqlNumeric
    rw [show sqlReplaceAllComma (dimStoredText (some ("1,00003"))) = "1.00003" from by decide]
    rw [show parseSqlNumericParts ("1.00003") = some ((100003 : Int), 5) from by decide]
    simp only [Option.map_some']
    congr 1
    unfold quant5
    rw [round_eq]
    norm_num
  constructor
  · exact (c4_dimensional_tolerance (some ("1,00002")) ((100001 : Rat) / 100000)
      ((100002 : Rat) / 100000) hs1 hq).1.mpr
      (by rw [abs_le]; norm_num [numericTolerance])
  · exact (c4_dimensional_tolerance (some ("1,00003")) ((100001 : Rat) / 100000)
      ((100003 : Rat) / 100000) hs2 hq).2.mpr
      (by rw [lt_abs]; norm_num [numericTolerance])

/-- C6: Every product row put through the warehouse pivot yields an
existencias mapping whose keys are exactly the six configured warehouse
names in table order, whose value for each configured warehouse is the
numeric content of the corresponding ALM_id_EXIST column with 0 for a
NULL/missing cell, and whose column map retains no raw ALM_id_EXIST key. -/
theorem c6_warehouse_pivot (data : List SRow) (r : SRow) (h : r ∈ data) :
    processRow r ∈ processExistencias data
    ∧ (processRow r).existencias.map Prod.fst
        = ["Durango", "Fresnillo", "Mazatlán", "Zacatecas", "Querétaro", "Fresnillo2"]
    ∧ (∀ id name, (id, name) ∈ ALMACENES →
        lookupRat (processRow r).existencias name = some (jsNumOr0 (getCol r (rawKey id))))
    ∧ (∀ id name, (id, name) ∈ ALMACENES → getCol r (rawKey id) = .null →
        lookupRat (processRow r).existencias name = some 0)
    ∧ (∀ c ∈ (processRow r).cols, ∀ id name, (id, name) ∈ ALMACENES → c.1 ≠ rawKey id) := by
  refine ⟨List.mem_map_of_mem processRow h, rfl, ?_, ?_, ?_⟩
  · intro id name hmem
    fin_cases hmem <;> simp [processRow, ALMACENES, lookupRat, rawKey, List.find?]
  · intro id name hmem hnull
    fin_cases hmem <;>
      (simp [rawKey] at hnull;
       simp [processRow, ALMACENES, lookupRat, rawKey, List.find?, hnull, jsNumOr0])
  · intro c hc id name hmem
    have hfilt := List.of_mem_filter hc
    simp only [decide_eq_true_eq] at hfilt
    intro hk
    exact hfilt (List.any_of_mem hmem (by simp [hk]))

/-- Witness for C6 at a concrete two-row page with one populated and one
NULL stock cell. -/
theorem c6_witness :
    processRow (⟨"A1", [("ALM_1_EXIST", JVal.num 5), ("DESCR", JVal.str ("X"))]⟩ : SRow)
      ∈ processExistencias
        [⟨"A1", [("ALM_1_EXIST", JVal.num 5), ("DESCR", JVal.str ("X"))]⟩, ⟨"B2", []⟩]
    ∧ lookupRat (processRow (⟨"B2", []⟩ : SRow)).existencias ("Fresnillo2") = some 0 := by
  constructor
  · exact (c6_warehouse_pivot
      [⟨"A1", [("ALM_1_EXIST", JVal.num 5), ("DESCR", JVal.str ("X"))]⟩, ⟨"B2", []⟩]
      ⟨"A1", [("ALM_1_EXIST", JVal.num 5), ("DESCR", JVal.str ("X"))]⟩
      (by simp)).1
  · exact (c6_warehouse_pivot [⟨"A1", [("ALM_1_EXIST", JVal.num 5), ("DESCR", JVal.str ("X"))]⟩,
      ⟨"B2", []⟩] ⟨"B2", []⟩ (by simp)).2.2.2.1 ("10") ("Fresnillo2") (by decide) (by decide)

/-- C10: GET /clavesalternas/filter with successful primary queries and an
empty match set answers 200 with the data/pagination envelope, empty data
and totalRecords 0; and no input whatsoever makes this handler answer 404. -/
theorem c10_filter_empty_200 :
    (∀ (limit offset : Nat) (q : String → Option String) (S : Option String)
        (sec : Except String (List (String × Rat))),
      filterHandler limit offset q S (Except.ok 0) (Except.ok []) sec
        = { status := 200,
            body := RespBody.envelope [] [("totalRecords", 0), ("limit", limit)] })
    ∧ (∀ (limit offset : Nat) (q : String → Option String) (S : Option String)
        (cR : Except String Nat) (dR : Except String (List SRow))
        (sec : Except String (List (String × Rat))),
      (filterHandler limit offset q S cR dR sec).status ≠ 404) := by
  constructor
  · intro limit offset q S sec
    simp [filterHandler, sqlPage, processExistencias]
  · intro limit offset q S cR dR sec
    rcases cR with e | total
    · simp [filterHandler]
    · rcases dR with e | matching
      · simp [filterHandler]
      · by_cases hp : (sqlPage limit offset matching).isEmpty
        · simp [filterHandler, hp]
        · rcases sec with e | r3 <;> simp [filterHandler, hp]

theorem fresnillo2_of_enrichDefault (rows : List SRow) (pr : ProcRow)
    (h : pr ∈ processExistencias (enrichDefault rows)) :
    lookupRat pr.existencias ("Fresnillo2") = some 0 := by
  unfold processExistencias enrichDefault at h
  rw [List.mem_map] at h
  obtain ⟨r1, hr1, rfl⟩ := h
  rw [List.mem_map] at hr1
  obtain ⟨r0, hmem0, rfl⟩ := hr1
  rw [lookupRat_processRow_fresnillo2, getCol_setCol]
  simp [jsNumOr0]

/-- C1 does not hold as stated: GET /clavesalternas/filter propagates a
secondary-store failure to the outer catch and answers 500 even though the
primary queries succeeded and returned a non-empty page. -/
theorem c1_counterexample :
    (filterHandler 100 0 (fun _ => none) none (Except.ok 1)
        (Except.ok [⟨"A1", []⟩]) (Except.error ("db3 down"))).status = 500
    ∧ (filterHandler 100 0 (fun _ => none) none (Except.ok 1)
        (Except.ok [⟨"A1", []⟩]) (Except.error ("db3 down"))).status ≠ 200 := by
  constructor
  · rfl
  · decide

/-- C1 amended: when the secondary-store query fails while the primary
queries succeed, GET /clavesalternas/search and GET
/clavesalternas/filter-ranges still answer 200 with each returned row having its
Fresnillo2 (warehouse 10) stock defaulted to 0, but GET
/clavesalternas/filter answers 500 whenever the failing secondary query was
issued (that is, the primary page is non-empty). -/
theorem c1_secondary_failure_degradation :
    (∀ (query SUCURSAL : Option String) (rows : List SRow) (e : String),
      searchTermOf query ≠ "" →
      (searchHandler query SUCURSAL (Except.ok rows) (Except.error e)).status = 200
      ∧ ∀ prs, getRows (searchHandler query SUCURSAL (Except.ok rows) (Except.error e)) = some prs →
        ∀ pr ∈ prs, lookupRat pr.existencias ("Fresnillo2") = some 0)
    ∧ (∀ (limit offset total : Nat) (matching : List SRow) (e : String),
      (filterRangesHandler limit offset (Except.ok total) (Except.ok matching) (Except.error e)).status = 200
      ∧ ∀ d, getData (filterRangesHandler limit offset (Except.ok total) (Except.ok matching) (Except.error e)) = some d →
        ∀ pr ∈ d, lookupRat pr.existencias ("Fresnillo2") = some 0)
    ∧ (∀ (limit offset : Nat) (q : String → Option String) (S : Option String)
        (total : Nat) (matching : List SRow) (e : String),
      sqlPage limit offset matching ≠ [] →
      (filterHandler limit offset q S (Except.ok total) (Except.ok matching) (Except.error e)).status = 500) := by
  refine ⟨?_, ?_, ?_⟩
  · intro query SUCURSAL rows e hterm
    unfold searchHandler
    rw [if_neg hterm]
    refine ⟨rfl, ?_⟩
    intro prs hprs pr hpr
    simp only [getRows, Option.some_inj] at hprs
    subst hprs
    by_cases hrows : rows.isEmpty
    · rw [if_pos hrows] at hpr
      rw [List.isEmpty_iff.mp hrows] at hpr
      simp [processExistencias] at hpr
    · rw [if_neg hrows] at hpr
      exact fresnillo2_of_enrichDefault rows pr hpr
  · intro limit offset total matching e
    unfold filterRangesHandler
    refine ⟨rfl, ?_⟩
    intro d hd pr hpr
    simp only [getData, Option.some_inj] at hd
    subst hd
    by_cases hp : (sqlPage limit offset matching).isEmpty
    · rw [if_pos hp] at hpr
      rw [List.isEmpty_iff.mp hp] at hpr
      simp [processExistencias] at hpr
    · rw [if_neg hp] at hpr
      exact fresnillo2_of_enrichDefault _ pr hpr
  · intro limit offset q S total matching e hne
    have hp : (sqlPage limit offset matching).isEmpty = false := by
      simpa [List.isEmpty_iff] using hne
    simp [filterHandler, hp]

/-- Witness for C1 (amended) at a concrete one-row page with a failing
secondary store: search and filter-ranges answer 200 with Fresnillo2 stock
0, filter answers 500. -/
theorem c1_witness :
    (searchHandler (some ("ZZ")) none (Except.ok [⟨"A1", []⟩]) (Except.error ("down"))).status = 200
    ∧ (filterRangesHandler 10 0 (Except.ok 1) (Except.ok [⟨"A1", []⟩]) (Except.error ("down"))).status = 200
    ∧ (filterHandler 10 0 (fun _ => none) none (Except.ok 1) (Except.ok [⟨"A1", []⟩]) (Except.error ("down"))).status = 500 := by
  refine ⟨?_, ?_, ?_⟩
  · exact ((c1_secondary_failure_degradation).1 (some ("ZZ")) none [⟨"A1", []⟩] ("down")
      (by decide)).1
  · exact ((c1_secondary_failure_degradation).2.1 10 0 1 [⟨"A1", []⟩] ("down")).1
  · exact (c1_secondary_failure_degradation).2.2 10 0 (fun _ => none) none 1 [⟨"A1", []⟩]
      ("down") (by decide)

/-- C2 does not hold as stated: a non-empty search term with zero result
rows yields 200 with an empty bare array (not 404), and an empty search
term yields 400 (not 200). -/
theorem c2_counterexample :
    (searchHandler (some ("ZZZ")) none (Except.ok []) (Except.ok [])).status = 200
    ∧ getRows (searchHandler (some ("ZZZ")) none (Except.ok []) (Except.ok [])) = some []
    ∧ (searchHandler none none (Except.ok []) (Except.ok [])).status = 400 := by
  refine ⟨rfl, rfl, rfl⟩

/-- C2 amended: GET /clavesalternas/search answers 400 whenever the
normalized search term is empty, and answers 200 with an empty bare array
whenever the term is non-empty and the primary query returns zero rows;
the endpoint has no 404 branch. -/
theorem c2_search_semantics (query SUCURSAL : Option String)
    (primary : Except String (List SRow))
    (secondary : Except String (List (String × Rat))) :
    (searchTermOf query = "" →
      (searchHandler query SUCURSAL primary secondary).status = 400)
    ∧ (searchTermOf query ≠ "" → primary = Except.ok [] →
      searchHandler query SUCURSAL primary secondary
        = { status := 200, body := RespBody.rows [] })
    ∧ (searchHandler query SUCURSAL primary secondary).status ≠ 404 := by
  refine ⟨?_, ?_, ?_⟩
  · intro h
    unfold searchHandler
    rw [if_pos h]
  · intro h hp
    subst hp
    unfold searchHandler
    rw [if_neg h]
    rfl
  · unfold searchHandler
    by_cases h : searchTermOf query = ""
    · rw [if_pos h]
      decide
    · rw [if_neg h]
      rcases primary with e | rows <;> simp

/-- Witness for C2 (amended) at a concrete empty result set and a concrete
empty term. -/
theorem c2_witness :
    searchHandler (some ("ZZZ")) none (Except.ok []) (Except.ok [])
        = { status := 200, body := RespBody.rows [] }
    ∧ (searchHandler none none (Except.ok []) (Except.ok [])).status = 400 := by
  constructor
  · exact (c2_search_semantics (some ("ZZZ")) none (Except.ok []) (Except.ok [])).2.1
      (by decide) rfl
  · exact (c2_search_semantics none none (Except.ok []) (Except.ok [])).1 rfl

theorem length_processExistencias (rows : List SRow) :
    (processExistencias rows).length = rows.length := by
  simp [processExistencias]

theorem length_enrichWithDb3 (rows : List SRow) (r3 : List (String × Rat)) :
    (enrichWithDb3 rows r3).length = rows.length := by
  simp [enrichWithDb3]

theorem length_enrichDefault (rows : List SRow) :
    (enrichDefault rows).length = rows.length := by
  simp [enrichDefault]

theorem length_sqlPage (limit offset : Nat) (rows : List SRow) :
    (sqlPage limit offset rows).length ≤ limit := by
  simpa [sqlPage] using List.length_take_le limit (rows.drop offset)

/-- C3 does not hold as stated: the pagination object of GET
/clavesalternas/filter carries only totalRecords and limit — it has no
currentPage and no totalPages field at all. -/
theorem c3_counterexample :
    getPagination (filterHandler 10 0 (fun _ => none) none (Except.ok 0)
        (Except.ok []) (Except.ok []))
      = some ([("totalRecords", 0), ("limit", 10)])
    ∧ lookupNat ([("totalRecords", 0), ("limit", 10)]) ("currentPage") = none
    ∧ lookupNat ([("totalRecords", 0), ("limit", 10)]) ("totalPages") = none := by
  refine ⟨rfl, by decide, by decide⟩

/-- C3 amended: GET /clavesalternas/filter-ranges returns pagination
metadata with currentPage = floor(offset/limit) + 1 and
totalPages = ceil(totalRecords/limit), and its data array holds at most
limit rows; GET /clavesalternas/filter also caps its data at limit rows but
its pagination object carries only totalRecords and limit. -/
theorem c3_pagination_metadata (limit offset : Nat) (hlim : 0 < limit) :
    (∀ (total : Nat) (matching : List SRow) (sec : Except String (List (String × Rat))),
      getPagination (filterRangesHandler limit offset (Except.ok total) (Except.ok matching) sec)
          = some (rangesPagination total limit offset)
      ∧ lookupNat (rangesPagination total limit offset) ("currentPage")
          = some (⌊(offset : ℚ) / (limit : ℚ)⌋₊ + 1)
      ∧ lookupNat (rangesPagination total limit offset) ("totalPages")
          = some ⌈(total : ℚ) / (limit : ℚ)⌉₊
      ∧ lookupNat (rangesPagination total limit offset) ("totalRecords") = some total
      ∧ (∀ d, getData (filterRangesHandler limit offset (Except.ok total) (Except.ok matching) sec)
            = some d → d.length ≤ limit))
    ∧ (∀ (q : String → Option String) (S : Option String) (total : Nat)
        (matching : List SRow) (sec : Except String (List (String × Rat))) (p : List (String × Nat)),
      getPagination (filterHandler limit offset q S (Except.ok total) (Except.ok matching) sec)
          = some p → p = [("totalRecords", total), ("limit", limit)])
    ∧ (∀ (q : String → Option String) (S : Option String) (cR : Except String Nat)
        (dR : Except String (List SRow)) (sec : Except String (List (String × Rat)))
        (d : List ProcRow),
      getData (filterHandler limit offset q S cR dR sec) = some d → d.length ≤ limit) := by
  refine ⟨?_, ?_, ?_⟩
  · intro total matching sec
    refine ⟨rfl, ?_, ?_, rfl, ?_⟩
    · rw [natFloorDiv]
      rfl
    · rw [natCeilDiv _ _ hlim]
      rfl
    · intro d hd
      simp only [filterRangesHandler, getData, Option.some_inj] at hd
      subst hd
      rw [length_processExistencias]
      by_cases hp : (sqlPage limit offset matching).isEmpty
      · rw [if_pos hp]
        exact length_sqlPage limit offset matching
      · rw [if_neg hp]
        rcases sec with e | r3
        · rw [length_enrichDefault]
          exact length_sqlPage limit offset matching
        · rw [length_enrichWithDb3]
          exact length_sqlPage limit offset matching
  · intro q S total matching sec p hp
    by_cases hpage : (sqlPage limit offset matching).isEmpty
    · simp only [filterHandler, getPagination, hpage, if_true, Option.some_inj] at hp
      exact hp.symm
    · rcases sec with e | r3
      · simp [filterHandler, getPagination, hpage] at hp
      · simp only [filterHandler, getPagination, hpage, Bool.false_eq_true, if_false,
          Option.some_inj] at hp
        exact hp.symm
  · intro q S cR dR sec d hd
    rcases cR with e | total
    · simp [filterHandler, getData] at hd
    · rcases dR with e | matching
      · simp [filterHandler, getData] at hd
      · by_cases hpage : (sqlPage limit offset matching).isEmpty
        · simp only [filterHandler, getData, hpage, if_true, Option.some_inj] at hd
          subst hd
          rw [length_processExistencias]
          exact length_sqlPage limit offset matching
        · rcases sec with e | r3
          · simp [filterHandler, getData, hpage] at hd
          · simp only [filterHandler, getData, hpage, Bool.false_eq_true, if_false,
              Option.some_inj] at hd
            subst hd
            rw [length_processExistencias, length_enrichWithDb3]
            exact length_sqlPage limit offset matching

/-- Witness for C3 (amended) at limit 10, offset 20, 25 total records. -/
theorem c3_witness :
    lookupNat (rangesPagination 25 10 20) ("currentPage")
        = some (⌊((20 : Nat) : ℚ) / ((10 : Nat) : ℚ)⌋₊ + 1)
    ∧ lookupNat (rangesPagination 25 10 20) ("totalPages")
        = some ⌈((25 : Nat) : ℚ) / ((10 : Nat) : ℚ)⌉₊ := by
  constructor
  · exact (((c3_pagination_metadata 10 20 (by decide)).1 25 [] (Except.ok []))).2.1
  · exact (((c3_pagination_metadata 10 20 (by decide)).1 25 [] (Except.ok []))).2.2.1

set_option maxRecDepth 16000 in
/-- C5: For both filter endpoints the COUNT query and the DATA query
interpolate the same whereString text and receive the same filter-predicate
parameter list; the DATA query parameter array prepends the
branch/price-list value (cvePrecio), matching the single placeholder of the
price join that sits ahead of the WHERE clause in the SQL text (the COUNT
text has no placeholder outside the WHERE clause, the tail after the WHERE
clause has none, and the WHERE clause has exactly one placeholder per
filter parameter). -/
theorem c5_count_data_consistency (q : String → Option String) (limit offset : Nat)
    (S : Option String) :
    filterCountSqlText (whereStringOf (filterWhereParams q).1)
        = filterCountHead ++ whereStringOf (filterWhereParams q).1
    ∧ filterDataSqlText limit offset (whereStringOf (filterWhereParams q).1)
        = filterDataHead limit offset ++ whereStringOf (filterWhereParams q).1
            ++ filterDataSuffix
    ∧ filterCountParams q = (filterWhereParams q).2
    ∧ filterDataParams S q = SqlParam.str (cvePrecioStr S) :: filterCountParams q
    ∧ qMarkCount (filterDataCols ++ filterDataJoins) = 1
    ∧ qMarkCount filterCountHead = 0
    ∧ qMarkCount filterDataSuffix = 0
    ∧ qMarkCount (whereStringOf (filterWhereParams q).1) = (filterCountParams q).length
    ∧ rangesCountSqlText (whereStringOf (rangesWhereParams q).1)
        = rangesCountHead ++ whereStringOf (rangesWhereParams q).1 ++ ";"
    ∧ rangesDataSqlText limit offset (whereStringOf (rangesWhereParams q).1)
        = rangesDataHead limit offset ++ whereStringOf (rangesWhereParams q).1
            ++ rangesDataSuffix
    ∧ rangesCountParams q = (rangesWhereParams q).2
    ∧ rangesDataParams S q = cvePrecioRanges S :: rangesCountParams q
    ∧ qMarkCount (rangesDataCols ++ rangesDataJoins) = 1
    ∧ qMarkCount rangesCountHead = 0
    ∧ qMarkCount rangesDataSuffix = 0
    ∧ qMarkCount (whereStringOf (rangesWhereParams q).1) = (rangesCountParams q).length :=
  ⟨rfl, rfl, rfl, rfl, by decide, by decide, by decide, filterWhere_qmark q,
   rfl, rfl, rfl, rfl, by decide, by decide, by decide, rangesWhere_qmark q⟩

theorem masivaLe_trans (a b c : MRow) (hab : masivaLe a b) (hbc : masivaLe b c) :
    masivaLe a c := by
  simp only [masivaLe, Bool.or_eq_true, Bool.and_eq_true, decide_eq_true_eq] at *
  rcases hab with h1 | ⟨h1, h2⟩ <;> rcases hbc with g1 | ⟨g1, g2⟩
  · exact Or.inl (lt_trans h1 g1)
  · exact Or.inl (g1 ▸ h1)
  · exact Or.inl (h1 ▸ g1)
  · exact Or.inr ⟨h1.trans g1, le_trans h2 g2⟩

theorem masivaLe_total (a b : MRow) : masivaLe a b || masivaLe b a := by
  simp only [masivaLe, Bool.or_eq_true, Bool.and_eq_true, decide_eq_true_eq]
  rcases lt_trichotomy a.cveArt b.cveArt with h | h | h
  · exact Or.inl (Or.inl h)
  · rcases Nat.le_total a.cveAlm b.cveAlm with g | g
    · exact Or.inl (Or.inr ⟨h, g⟩)
    · exact Or.inr (Or.inr ⟨h.symm, g⟩)
  · exact Or.inr (Or.inl h)

/-- C7: No family value returned by GET /familias normalizes (trim then
uppercase) into the configured denylist, the empty string is never
returned, and every returned value does occur (non-NULL) in the attribute
table. -/
theorem c7_familias_denylist (t : List (Option String)) (f : String)
    (h : f ∈ familiasResult t) :
    excluir.contains (jsToUpper (jsTrim f)) = false ∧ f ≠ "" ∧ some f ∈ t := by
  unfold familiasResult at h
  rw [List.Perm.mem_iff (List.mergeSort_perm _ _)] at h
  rw [List.mem_dedup, List.mem_filter] at h
  obtain ⟨hmem, hkept⟩ := h
  unfold familiaKept at hkept
  simp only [Bool.and_eq_true, decide_eq_true_eq] at hkept
  refine ⟨?_, hkept.1, ?_⟩
  · have := hkept.2
    simp only [decide_eq_true_eq] at this
    exact Bool.not_eq_true _ ▸ (by simpa using this)
  · rw [List.mem_filterMap] at hmem
    obtain ⟨a, ha, hid⟩ := hmem
    simp only [id] at hid
    subst hid
    exact ha

/-- Witness for C7 at a concrete table holding a denylisted family. -/
theorem c7_witness :
    excluir.contains (jsToUpper (jsTrim ("SELLOS"))) = false
    ∧ ("SELLOS" : String) ≠ ""
    ∧ some ("SELLOS") ∈ [some ("kit "), some ("SELLOS")] :=
  c7_familias_denylist [some ("kit "), some ("SELLOS")] ("SELLOS")
    (by unfold familiasResult
        rw [List.Perm.mem_iff (List.mergeSort_perm _ _)]
        decide)

/-- C8: POST /existencias-masiva-filtrada answers 400 without issuing any
store query when the body holds no non-empty key array; with a non-empty
key list it answers 200 and its rows are exactly the stock rows whose key
is among the supplied keys and whose warehouse id is 1 or 6, ordered by
article key then warehouse id. -/
theorem c8_masiva_bulk (claves : Option (List String)) (table : List MRow) :
    ((claves = none ∨ claves = some []) →
      (masivaHandler claves table).status = 400
      ∧ (masivaHandler claves table).dbQueried = false
      ∧ (masivaHandler claves table).rows = [])
    ∧ (∀ cs, claves = some cs → cs ≠ [] →
      (masivaHandler claves table).status = 200
      ∧ (masivaHandler claves table).dbQueried = true
      ∧ List.Perm (masivaHandler claves table).rows (table.filter (masivaPred cs))
      ∧ List.Pairwise (fun a b => masivaLe a b = true) (masivaHandler claves table).rows
      ∧ (∀ r, r ∈ (masivaHandler claves table).rows ↔ r ∈ table ∧ masivaPred cs r = true)) := by
  constructor
  · rintro (h | h) <;> subst h <;> simp [masivaHandler]
  · intro cs hcs hne
    subst hcs
    have hemp : cs.isEmpty = false := by simpa [List.isEmpty_iff] using hne
    simp only [masivaHandler, hemp, Bool.false_eq_true, if_false]
    refine ⟨trivial, trivial, List.mergeSort_perm _ _, ?_, ?_⟩
    · exact List.sorted_mergeSort masivaLe_trans masivaLe_total _
    · intro r
      rw [List.Perm.mem_iff (List.mergeSort_perm _ _), List.mem_filter]

/-- Witness for C8 at a concrete body and stock table. -/
theorem c8_witness :
    (masivaHandler (some (["B", "A"])) [⟨"B", 6, 2⟩, ⟨"A", 1, 3⟩, ⟨"C", 1, 9⟩]).status = 200
    ∧ (masivaHandler (some (["B", "A"])) [⟨"B", 6, 2⟩, ⟨"A", 1, 3⟩, ⟨"C", 1, 9⟩]).dbQueried = true
    ∧ ((⟨"C", 1, 9⟩ : MRow) ∈ (masivaHandler (some (["B", "A"]))
          [⟨"B", 6, 2⟩, ⟨"A", 1, 3⟩, ⟨"C", 1, 9⟩]).rows
        ↔ (⟨"C", 1, 9⟩ : MRow) ∈ ([⟨"B", 6, 2⟩, ⟨"A", 1, 3⟩, ⟨"C", 1, 9⟩] : List MRow)
          ∧ masivaPred (["B", "A"]) ⟨"C", 1, 9⟩ = true)
    ∧ (masivaHandler none [⟨"B", 6, 2⟩, ⟨"A", 1, 3⟩, ⟨"C", 1, 9⟩]).status = 400 := by
  refine ⟨?_, ?_, ?_, ?_⟩
  · exact ((c8_masiva_bulk (some (["B", "A"])) [⟨"B", 6, 2⟩, ⟨"A", 1, 3⟩, ⟨"C", 1, 9⟩]).2
      (["B", "A"]) rfl (by decide)).1
  · exact ((c8_masiva_bulk (some (["B", "A"])) [⟨"B", 6, 2⟩, ⟨"A", 1, 3⟩, ⟨"C", 1, 9⟩]).2
      (["B", "A"]) rfl (by decide)).2.1
  · exact ((c8_masiva_bulk (some (["B", "A"])) [⟨"B", 6, 2⟩, ⟨"A", 1, 3⟩, ⟨"C", 1, 9⟩]).2
      (["B", "A"]) rfl (by decide)).2.2.2.2 ⟨"C", 1, 9⟩
  · exact ((c8_masiva_bulk none [⟨"B", 6, 2⟩, ⟨"A", 1, 3⟩, ⟨"C", 1, 9⟩]).1 (Or.inl rfl)).1

/-- C9 does not hold as stated: the active /clavesalternas/filter
normalizer does not replace a literal plus sign with a space — the value
A+B is bound as %A+B%, not %A B% (the plus-to-space rewrite exists only in
superseded commented-out revisions of the endpoint). -/
theorem c9_counterexample :
    (filterWhereParams (fun a => if a = "familia" then some ("A+B") else none)).2
        = [SqlParam.str ("%A+B%")]
    ∧ (filterWhereParams (fun a => if a = "familia" then some ("A+B") else none)).2
        ≠ [SqlParam.str ("%A B%")] := by
  constructor
  · decide
  · decide

/-- C9 amended: for a text filter of GET /clavesalternas/filter the
normalizer trims the raw value and uppercases it (with no plus-to-space
replacement), binding %TRIMMED-UPPERCASED% as the predicate parameter, and
a value that is absent, empty, or collapses to the empty string after
trimming contributes no predicate and no parameter. -/
theorem c9_text_filter_normalization (q : String → Option String)
    (acc : List String × List SqlParam) (al col : String)
    (hmem : (al, col) ∈ filterMap)
    (htext : numericDimensionalFields.contains col = false) :
    (∀ v, q al = some v → v ≠ "" → jsTrim v ≠ "" →
      filterStep q acc (al, col)
        = (acc.1 ++ [textClause col],
           acc.2 ++ [SqlParam.str ("%" ++ jsToUpper (jsTrim v) ++ "%")]))
    ∧ (q al = none → filterStep q acc (al, col) = acc)
    ∧ (∀ v, q al = some v → jsTrim v = "" → filterStep q acc (al, col) = acc) := by
  refine ⟨?_, ?_, ?_⟩
  · intro v hv hne htr
    unfold filterStep
    rw [hv]
    simp only [if_neg hne, if_neg htr, htext, Bool.false_eq_true, if_false]
  · intro hv
    unfold filterStep
    rw [hv]
  · intro v hv htr
    by_cases hne : v = ""
    · subst hne
      simp [filterStep, hv]
    · simp only [filterStep, hv]
      rw [if_neg hne, if_pos htr]

/-- Witness for C9 (amended): a padded mixed-case value is trimmed,
uppercased and bound with wildcards; an absent value adds nothing. -/
theorem c9_witness :
    filterStep (fun a => if a = "familia" then some ("  a+b ") else none)
        (["T2.TIPO = \x27P\x27"], []) ("familia", "T4.CAMPLIB22")
      = (["T2.TIPO = \x27P\x27"] ++ [textClause ("T4.CAMPLIB22")],
         [] ++ [SqlParam.str ("%" ++ jsToUpper (jsTrim ("  a+b ")) ++ "%")])
    ∧ filterStep (fun _ => none) (["T2.TIPO = \x27P\x27"], []) ("familia", "T4.CAMPLIB22")
      = (["T2.TIPO = \x27P\x27"], []) := by
  constructor
  · exact (c9_text_filter_normalization
      (fun a => if a = "familia" then some ("  a+b ") else none)
      (["T2.TIPO = \x27P\x27"], []) ("familia") ("T4.CAMPLIB22")
      (by decide) (by decide)).1 ("  a+b ") (by decide) (by decide) (by decide)
  · exact (c9_text_filter_normalization (fun _ => none)
      (["T2.TIPO = \x27P\x27"], []) ("familia") ("T4.CAMPLIB22")
      (by decide) (by decide)).2.1 rfl
